import Mathlib

/-!
Shallow embedding of the ESP8266 single-room sensor firmware
(`src/Arduino/Basic_Sensor_Data_Upload_Real_for_Single_room/sensor.h` and
`network.h`).

Modelling conventions:
* C `float` values are modelled as exact rationals (the decoding formulas
  and range checks involved are robust to float rounding at the scales used).
* `millis()` (32-bit unsigned milliseconds) is a `Nat` argument; the
  unsigned 32-bit subtraction `millis() - g_last_sensor_update` is `usub32`.
* I2C bus interactions (`Wire.*`) and `analogRead` are external inputs and
  are modelled as explicit records of the values the bus returns this call
  (`AHT21Bus`, `ENS160Bus`, the ADC sample).
* `random(a, b)` draws are explicit integer inputs; the Arduino contract
  (result in `[a, b-1]`) appears as a hypothesis where a claim needs it.
* `pow(x, 1.4)` from libm is an abstract parameter `powR : ℚ → ℚ`, since it
  is an external library primitive, not code of this repository.
* `Serial` logging is not modelled except where a claim mentions it: the
  send routines return a `Bool` recording whether the "not connected"
  warning print executed; the dispatcher returns which branch it logged.
-/

namespace SmartHome

/-- Global sensor state of `sensor.h` (lines 40-50): the `g_*` variables. -/
structure SensorState where
  g_temperature : ℚ
  g_humidity : ℚ
  g_co2 : Int
  g_voc : Int
  g_light_level : Int
  g_motion : Bool
  g_sensor_data_valid : Bool
  g_last_sensor_update : Nat
  deriving Repr, DecidableEq

/-- The C initializers of the globals (sensor.h lines 41-50). -/
def initState : SensorState :=
  { g_temperature := 23.5
    g_humidity := 55.0
    g_co2 := 420
    g_voc := 15
    g_light_level := 300
    g_motion := false
    g_sensor_data_valid := false
    g_last_sensor_update := 0 }

/-- Unsigned 32-bit subtraction, as performed on `unsigned long` values by
`millis() - g_last_sensor_update`. -/
def usub32 (a b : Nat) : Nat :=
  (2 ^ 32 + a % 2 ^ 32 - b % 2 ^ 32) % 2 ^ 32

/-- `isSensorDataValid` (sensor.h lines 404-406):
`g_sensor_data_valid && (millis() - g_last_sensor_update < 60000)`. -/
def isSensorDataValid (st : SensorState) (now : Nat) : Bool :=
  st.g_sensor_data_valid && decide (usub32 now st.g_last_sensor_update < 60000)

/-- The bus values observed by one `readAHT21` call: the result of
`Wire.endTransmission` after the measure command, the number of bytes
`Wire.available` reports after `Wire.requestFrom(AHT21_ADDR, 6)`, and the six
data bytes. -/
structure AHT21Bus where
  cmdError : Nat
  avail : Nat
  data : Fin 6 → Fin 256
  deriving DecidableEq

/-- The 20-bit raw humidity word of `readAHT21` (sensor.h line 112):
`(data[1] << 12) | (data[2] << 4) | (data[3] >> 4)`. -/
def aht21HumidityRaw (d : Fin 6 → Fin 256) : Nat :=
  ((d 1 : Nat) <<< 12) ||| ((d 2 : Nat) <<< 4) ||| ((d 3 : Nat) >>> 4)

/-- The 20-bit raw temperature word of `readAHT21` (sensor.h line 116):
`((data[3] & 0x0F) << 16) | (data[4] << 8) | data[5]`. -/
def aht21TemperatureRaw (d : Fin 6 → Fin 256) : Nat :=
  (((d 3 : Nat) &&& 0x0F) <<< 16) ||| ((d 4 : Nat) <<< 8) ||| (d 5 : Nat)

/-- Decoded humidity (sensor.h line 113): `raw * 100.0 / 1048576.0`. -/
def aht21Humidity (d : Fin 6 → Fin 256) : ℚ :=
  (aht21HumidityRaw d : ℚ) * 100 / 1048576

/-- Decoded temperature (sensor.h line 117): `raw * 200.0 / 1048576.0 - 50.0`. -/
def aht21Temperature (d : Fin 6 → Fin 256) : ℚ :=
  (aht21TemperatureRaw d : ℚ) * 200 / 1048576 - 50

/-- `readAHT21` (sensor.h lines 82-140). Returns the driver result together
with the updated globals. The plausibility check is line 120:
`temperature > -40 && temperature < 85 && humidity >= 0 && humidity <= 100`. -/
def readAHT21 (bus : AHT21Bus) (st : SensorState) : Bool × SensorState :=
  if bus.cmdError ≠ 0 then (false, st)
  else if bus.avail ≥ 6 then
    if (bus.data 0 : Nat) &&& 0x80 ≠ 0 then (false, st)
    else if -40 < aht21Temperature bus.data ∧ aht21Temperature bus.data < 85 ∧
        0 ≤ aht21Humidity bus.data ∧ aht21Humidity bus.data ≤ 100 then
      (true, { st with g_temperature := aht21Temperature bus.data,
                       g_humidity := aht21Humidity bus.data })
    else (false, st)
  else (false, st)

/-- The bus values observed by one `readENS160` call: the status-register
transaction result, the availability and content of the status byte, and the
availability and bytes of the AQI, TVOC and eCO2 sub-register reads. -/
structure ENS160Bus where
  statusCmdError : Nat
  statusAvail : Nat
  status : Fin 256
  aqiAvail : Nat
  aqi : Fin 256
  tvocAvail : Nat
  tvocLo : Fin 256
  tvocHi : Fin 256
  co2Avail : Nat
  co2Lo : Fin 256
  co2Hi : Fin 256
  deriving DecidableEq

/-- The `tvoc` local of `readENS160` (sensor.h lines 172-176): initialised
to 0 and overwritten by `Wire.read() | (Wire.read() << 8)` only when two
bytes are available — a short read leaves the 0. -/
def ens160Tvoc (bus : ENS160Bus) : Nat :=
  if bus.tvocAvail ≥ 2 then (bus.tvocLo : Nat) ||| ((bus.tvocHi : Nat) <<< 8) else 0

/-- The `co2` local of `readENS160` (sensor.h lines 182-186): initialised to
the default 400 and overwritten only when two bytes are available — a short
read leaves the 400. -/
def ens160Co2 (bus : ENS160Bus) : Nat :=
  if bus.co2Avail ≥ 2 then (bus.co2Lo : Nat) ||| ((bus.co2Hi : Nat) <<< 8) else 400

/-- `readENS160` (sensor.h lines 144-215). The AQI byte (line 166) is only
printed, never stored, so it does not appear here. The plausibility check is
line 189: `co2 > 300 && co2 < 5000 && tvoc < 10000`. -/
def readENS160 (bus : ENS160Bus) (st : SensorState) : Bool × SensorState :=
  if bus.statusCmdError ≠ 0 then (false, st)
  else if bus.statusAvail > 0 then
    if (bus.status : Nat) &&& 0x02 ≠ 0 then
      if 300 < ens160Co2 bus ∧ ens160Co2 bus < 5000 ∧ ens160Tvoc bus < 10000 then
        (true, { st with g_co2 := (ens160Co2 bus : Int), g_voc := (ens160Tvoc bus : Int) })
      else (false, st)
    else (false, st)
  else (false, st)

/-- The three-band resistance-to-lux rule of `readGL5539`
(sensor.h lines 240-252); `powR` models `pow(r, 1.4)`. -/
def gl5539LuxOfR (powR : ℚ → ℚ) (r : ℚ) : ℚ :=
  if r > 50000 then 1
  else if r < 100 then 2000
  else 12500000 / powR r

/-- The pull-up divider resistance of `readGL5539` (sensor.h line 235):
`R_pullup * adc / (ADC_MAX - adc)` with `R_pullup = 10000`, `ADC_MAX = 1024`. -/
def gl5539Resistance (adc : Nat) : ℚ :=
  10000 * (adc : ℚ) / ((1024 : ℚ) - (adc : ℚ))

/-- The lux value `readGL5539` computes from a raw ADC sample. -/
def gl5539Lux (powR : ℚ → ℚ) (adc : Nat) : ℚ :=
  gl5539LuxOfR powR (gl5539Resistance adc)

/-- `readGL5539` (sensor.h lines 219-273), with the ADC sample as input.
The division guard is line 228 (`adcValue >= GL5539_ADC_MAX - 1`), the
validity check line 255 (`lux >= 0 && lux <= 10000 && adcValue >= 10`), and
`(int)lux` on the success path is `⌊lux⌋` since `lux` is nonnegative there. -/
def readGL5539 (powR : ℚ → ℚ) (adc : Nat) (st : SensorState) : Bool × SensorState :=
  if adc ≥ 1024 - 1 then (false, st)
  else if 0 ≤ gl5539Lux powR adc ∧ gl5539Lux powR adc ≤ 10000 ∧ 10 ≤ adc then
    (true, { st with g_light_level := ⌊gl5539Lux powR adc⌋ })
  else (false, st)

/-- The sensor globals after the three enabled drivers of `readAllSensors`
have run in source order (sensor.h lines 362-384): AHT21, then ENS160, then
GL5539 (VEML7700 is compiled out by the configuration of lines 2-5). -/
def afterDrivers (aht : AHT21Bus) (ens : ENS160Bus) (powR : ℚ → ℚ) (adc : Nat)
    (st : SensorState) : SensorState :=
  (readGL5539 powR adc (readENS160 ens (readAHT21 aht st).2).2).2

/-- The `anyDataRead` local of `readAllSensors` (sensor.h lines 358-384):
whether at least one enabled driver reported success this cycle. -/
def anyDriverOk (aht : AHT21Bus) (ens : ENS160Bus) (powR : ℚ → ℚ) (adc : Nat)
    (st : SensorState) : Bool :=
  (readAHT21 aht st).1 || (readENS160 ens (readAHT21 aht st).2).1 ||
    (readGL5539 powR adc (readENS160 ens (readAHT21 aht st).2).2).1

/-- `readAllSensors` (sensor.h lines 357-401) with the compile-time
configuration of this source tree: AHT21, ENS160 and GL5539 enabled,
VEML7700 disabled. `motionRand` is the `random(0, 100)` draw of line 387 and
`now` the `millis()` of line 391. Motion is synthesized unconditionally
(line 387); the validity flag and timestamp are written only when some
driver succeeded (lines 389-391). -/
def readAllSensors (aht : AHT21Bus) (ens : ENS160Bus) (powR : ℚ → ℚ) (adc : Nat)
    (motionRand : Nat) (now : Nat) (st : SensorState) : Bool × SensorState :=
  if anyDriverOk aht ens powR adc st then
    (true, { afterDrivers aht ens powR adc st with
              g_motion := decide (motionRand < 5),
              g_sensor_data_valid := true,
              g_last_sensor_update := now })
  else
    (false, { afterDrivers aht ens powR adc st with g_motion := decide (motionRand < 5) })

/-- `TARGET_ROOM` (network.h line 16). -/
def TARGET_ROOM : String := "living_room"

/-- The six `random` draws `sendSensorData` makes on its simulated branch
(network.h lines 78-83), in source order. -/
structure SimRand where
  rTemp : Int
  rHum : Int
  rCo2 : Int
  rVoc : Int
  rLight : Int
  rMotion : Nat
  deriving Repr, DecidableEq

/-- The nested `parameters` object of the outbound data message
(network.h lines 100-110). -/
structure SensorParams where
  temperature : ℚ
  humidity : ℚ
  co2 : Int
  voc : Int
  light_level : Int
  motion : Bool
  device_id : String
  source : String
  data_type : String
  timestamp : Nat
  deriving Repr, DecidableEq

/-- The outbound `control` envelope of `sendSensorData`
(network.h lines 91-110): one `sensors`/`data_update` command. -/
structure OutMessage where
  type : String
  device : String
  action : String
  location : String
  parameters : SensorParams
  deriving Repr, DecidableEq

/-- The branch condition of network.h line 64:
`g_sensor_data_valid && isSensorDataValid()`. -/
def useRealData (st : SensorState) (now : Nat) : Bool :=
  st.g_sensor_data_valid && isSensorDataValid st now

/-- The envelope `sendSensorData` composes once connected
(network.h lines 59-110): real values when line 64's condition holds,
otherwise the synthesized values of lines 78-83; the `source` and
`data_type` tags of lines 108-109 test the raw `g_sensor_data_valid` flag. -/
def composedMessage (st : SensorState) (now : Nat) (rng : SimRand)
    (mac : String) : OutMessage :=
  { type := "control"
    device := "sensors"
    action := "data_update"
    location := TARGET_ROOM
    parameters :=
      { temperature :=
          if useRealData st now then st.g_temperature else 23.5 + (rng.rTemp : ℚ) / 100
        humidity :=
          if useRealData st now then st.g_humidity else 55.0 + (rng.rHum : ℚ) / 100
        co2 := if useRealData st now then st.g_co2 else 420 + rng.rCo2
        voc := if useRealData st now then st.g_voc else 15 + rng.rVoc
        light_level := if useRealData st now then st.g_light_level else 300 + rng.rLight
        motion := if useRealData st now then st.g_motion else decide (rng.rMotion < 10)
        device_id := mac
        source := if st.g_sensor_data_valid then "esp8266_real_sensors" else "esp8266_simulated"
        data_type := if st.g_sensor_data_valid then "real" else "simulated"
        timestamp := now } }

/-- `sendSensorData` (network.h lines 53-126). Inputs: the globals, the
connection flag, `millis()`, the random draws of the simulated branch and
`WiFi.macAddress()`. Output: the composed message (`none` when not
connected) and whether the "Cannot send sensor data - not connected"
warning print of line 55 executed. -/
def sendSensorData (st : SensorState) (wsConnected : Bool) (now : Nat)
    (rng : SimRand) (mac : String) : Option OutMessage × Bool :=
  if !wsConnected then (none, true)
  else (some (composedMessage st now rng mac), false)

/-- The lightweight ping envelope of `sendPing` (network.h lines 224-229). -/
structure PingMessage where
  type : String
  device_id : String
  location : String
  timestamp : Nat
  sensor_status : String
  deriving Repr, DecidableEq

/-- `sendPing` (network.h lines 221-238). When not connected the source is
`if (!wsConnected) return;` — no message and no warning print, hence the
second component is `false` on that path. -/
def sendPing (st : SensorState) (wsConnected : Bool) (now : Nat)
    (mac : String) : Option PingMessage × Bool :=
  if !wsConnected then (none, false)
  else
    (some
      { type := "ping"
        device_id := mac
        location := TARGET_ROOM
        timestamp := now
        sensor_status := if st.g_sensor_data_valid then "active" else "inactive" },
      false)

/-- An inbound message as `handleMessage` consumes it: whether
`deserializeJson` succeeded, and the `type` and `location` strings it
extracts (a missing field reads back as the empty string). The remaining
payload fields are only ever printed, so they are not modelled. -/
structure InMessage where
  parseOk : Bool
  type : String
  location : String
  deriving Repr, DecidableEq

/-- Which branch of `handleMessage` ran (each branch only logs). -/
inductive Dispatch where
  | parseError
  | discardedWrongRoom
  | initMsg
  | controlResults
  | sensorUpdate
  | deviceUpdate
  | errorMsg
  | other
  deriving Repr, DecidableEq

/-- Combined mutable state touched by the network layer: the sensor globals
and `wsConnected` (network.h line 27). -/
structure SysState where
  sensors : SensorState
  wsConnected : Bool
  deriving Repr, DecidableEq

/-- Initial system state: C initializers of the globals and
`wsConnected = false`. -/
def initSysState : SysState :=
  { sensors := initState, wsConnected := false }

/-- `handleMessage` (network.h lines 128-218): parse-failure check, then the
room filter of line 141 (`!location.isEmpty() && location != TARGET_ROOM`),
then the `type` dispatch. Every branch only prints, so the state is
returned unchanged on every path. -/
def handleMessage (msg : InMessage) (st : SysState) : Dispatch × SysState :=
  if msg.parseOk = false then (.parseError, st)
  else if msg.location ≠ "" ∧ msg.location ≠ TARGET_ROOM then (.discardedWrongRoom, st)
  else if msg.type = "init" then (.initMsg, st)
  else if msg.type = "control_results" then (.controlResults, st)
  else if msg.type = "sensor_update" then (.sensorUpdate, st)
  else if msg.type = "device_update" then (.deviceUpdate, st)
  else if msg.type = "error" then (.errorMsg, st)
  else (.other, st)

/-- Transport events delivered to `webSocketEvent` (network.h lines 240-279). -/
inductive WSEvent where
  | disconnected
  | connected
  | text (msg : InMessage)
  | errorEv
  | pingEv
  | pongEv
  | otherEv
  deriving Repr, DecidableEq

/-- `webSocketEvent` (network.h lines 240-279): sets `wsConnected` on
connect/disconnect, forwards TEXT payloads to `handleMessage`, and only
logs on every other event. -/
def webSocketEvent (ev : WSEvent) (st : SysState) : SysState :=
  match ev with
  | .disconnected => { st with wsConnected := false }
  | .connected => { st with wsConnected := true }
  | .text msg => (handleMessage msg st).2
  | .errorEv => st
  | .pingEv => st
  | .pongEv => st
  | .otherEv => st

/-- The operations of the operating loop, each carrying the external inputs
(bus values, random draws, clock reading) its call consumes. -/
inductive Op where
  | readAll (aht : AHT21Bus) (ens : ENS160Bus) (powR : ℚ → ℚ) (adc : Nat)
      (motionRand : Nat) (now : Nat)
  | sendData (rng : SimRand) (now : Nat) (mac : String)
  | sendPingOp (now : Nat) (mac : String)
  | handle (msg : InMessage)
  | wsEvent (ev : WSEvent)

/-- State effect of one loop operation. `sendSensorData` and `sendPing`
write no globals in the source, so their state effect is the identity. -/
def stepOp (op : Op) (st : SysState) : SysState :=
  match op with
  | .readAll aht ens powR adc motionRand now =>
      { st with sensors := (readAllSensors aht ens powR adc motionRand now st.sensors).2 }
  | .sendData _ _ _ => st
  | .sendPingOp _ _ => st
  | .handle msg => (handleMessage msg st).2
  | .wsEvent ev => webSocketEvent ev st

/-- Run a sequence of loop operations. -/
def runOps (ops : List Op) (st : SysState) : SysState :=
  List.foldl (fun s op => stepOp op s) st ops

/-! ## Helper lemmas -/

lemma usub32_eq_sub (a b : Nat) (h1 : b ≤ a) (h2 : a < 2 ^ 32) :
    usub32 a b = a - b := by
  unfold usub32
  omega

lemma usub32_self (a : Nat) : usub32 a a = 0 := by
  unfold usub32
  omega

lemma readAHT21_frame (bus : AHT21Bus) (st : SensorState) :
    (readAHT21 bus st).2.g_co2 = st.g_co2 ∧
    (readAHT21 bus st).2.g_voc = st.g_voc ∧
    (readAHT21 bus st).2.g_light_level = st.g_light_level ∧
    (readAHT21 bus st).2.g_motion = st.g_motion ∧
    (readAHT21 bus st).2.g_sensor_data_valid = st.g_sensor_data_valid ∧
    (readAHT21 bus st).2.g_last_sensor_update = st.g_last_sensor_update := by
  unfold readAHT21
  split_ifs <;> simp

lemma readENS160_frame (bus : ENS160Bus) (st : SensorState) :
    (readENS160 bus st).2.g_temperature = st.g_temperature ∧
    (readENS160 bus st).2.g_humidity = st.g_humidity ∧
    (readENS160 bus st).2.g_light_level = st.g_light_level ∧
    (readENS160 bus st).2.g_motion = st.g_motion ∧
    (readENS160 bus st).2.g_sensor_data_valid = st.g_sensor_data_valid ∧
    (readENS160 bus st).2.g_last_sensor_update = st.g_last_sensor_update := by
  unfold readENS160
  split_ifs <;> simp

lemma readGL5539_frame (powR : ℚ → ℚ) (adc : Nat) (st : SensorState) :
    (readGL5539 powR adc st).2.g_temperature = st.g_temperature ∧
    (readGL5539 powR adc st).2.g_humidity = st.g_humidity ∧
    (readGL5539 powR adc st).2.g_co2 = st.g_co2 ∧
    (readGL5539 powR adc st).2.g_voc = st.g_voc ∧
    (readGL5539 powR adc st).2.g_motion = st.g_motion ∧
    (readGL5539 powR adc st).2.g_sensor_data_valid = st.g_sensor_data_valid ∧
    (readGL5539 powR adc st).2.g_last_sensor_update = st.g_last_sensor_update := by
  unfold readGL5539
  split_ifs <;> simp

lemma afterDrivers_frame (aht : AHT21Bus) (ens : ENS160Bus) (powR : ℚ → ℚ)
    (adc : Nat) (st : SensorState) :
    (afterDrivers aht ens powR adc st).g_motion = st.g_motion ∧
    (afterDrivers aht ens powR adc st).g_sensor_data_valid = st.g_sensor_data_valid ∧
    (afterDrivers aht ens powR adc st).g_last_sensor_update = st.g_last_sensor_update := by
  obtain ⟨-, -, -, m1, v1, u1⟩ := readAHT21_frame aht st
  obtain ⟨-, -, -, m2, v2, u2⟩ := readENS160_frame ens (readAHT21 aht st).2
  obtain ⟨-, -, -, -, m3, v3, u3⟩ :=
    readGL5539_frame powR adc (readENS160 ens (readAHT21 aht st).2).2
  unfold afterDrivers
  exact ⟨by rw [m3, m2, m1], by rw [v3, v2, v1], by rw [u3, u2, u1]⟩

lemma handleMessage_state_eq (msg : InMessage) (st : SysState) :
    (handleMessage msg st).2 = st := by
  unfold handleMessage
  split_ifs <;> rfl

/-! ## Claim theorems -/

/-- C2: `isSensorDataValid` returns true iff `g_sensor_data_valid` is true
and the elapsed time since `g_last_sensor_update` is strictly below
60000 ms; it is a pure function of that state and the current time, so it
is true immediately after any `readAllSensors` cycle in which at least one
driver succeeded, and false once more than 60 seconds have elapsed,
regardless of field values. -/
theorem isSensorDataValid_fresh_iff :
    (∀ (st : SensorState) (now : Nat), st.g_last_sensor_update ≤ now → now < 2 ^ 32 →
      (isSensorDataValid st now = true ↔
        st.g_sensor_data_valid = true ∧ now - st.g_last_sensor_update < 60000)) ∧
    (∀ (aht : AHT21Bus) (ens : ENS160Bus) (powR : ℚ → ℚ) (adc motionRand now : Nat)
      (st : SensorState),
      (readAllSensors aht ens powR adc motionRand now st).1 = true →
      isSensorDataValid (readAllSensors aht ens powR adc motionRand now st).2 now = true) ∧
    (∀ (st : SensorState) (now : Nat), st.g_last_sensor_update ≤ now → now < 2 ^ 32 →
      60000 < now - st.g_last_sensor_update → isSensorDataValid st now = false) := by
  refine ⟨?_, ?_, ?_⟩
  · intro st now h1 h2
    unfold isSensorDataValid
    rw [usub32_eq_sub now st.g_last_sensor_update h1 h2]
    simp
  · intro aht ens powR adc motionRand now st h
    unfold readAllSensors at h ⊢
    split_ifs at h ⊢ with hc
    unfold isSensorDataValid
    simp [usub32_self]
  · intro st now h1 h2 h3
    unfold isSensorDataValid
    rw [usub32_eq_sub now st.g_last_sensor_update h1 h2]
    simp
    omega

/-- C2 witness: a state marked valid 5 ms ago is reported fresh. -/
theorem isSensorDataValid_fresh_iff_witness :
    isSensorDataValid
      { initState with g_sensor_data_valid := true, g_last_sensor_update := 5 } 10 = true := by
  have h := isSensorDataValid_fresh_iff.1
    { initState with g_sensor_data_valid := true, g_last_sensor_update := 5 } 10
    (by norm_num [initState]) (by norm_num)
  exact h.mpr ⟨rfl, by norm_num [initState]⟩

/-- C6: every `readAHT21` success stores the decoded values, and those lie
in [-40, 85] °C and [0, 100] %; a decoded reading outside those ranges makes
the driver fail and leaves the globals untouched. -/
theorem readAHT21_range_reject (bus : AHT21Bus) (st : SensorState) :
    ((readAHT21 bus st).1 = true →
      (readAHT21 bus st).2.g_temperature = aht21Temperature bus.data ∧
      (readAHT21 bus st).2.g_humidity = aht21Humidity bus.data ∧
      -40 ≤ (readAHT21 bus st).2.g_temperature ∧
      (readAHT21 bus st).2.g_temperature ≤ 85 ∧
      0 ≤ (readAHT21 bus st).2.g_humidity ∧
      (readAHT21 bus st).2.g_humidity ≤ 100) ∧
    ((aht21Temperature bus.data < -40 ∨ 85 < aht21Temperature bus.data ∨
      aht21Humidity bus.data < 0 ∨ 100 < aht21Humidity bus.data) →
      (readAHT21 bus st).1 = false ∧ (readAHT21 bus st).2 = st) := by
  by_cases h1 : bus.cmdError ≠ 0
  · simp [readAHT21, h1]
  · by_cases h2 : bus.avail ≥ 6
    · by_cases h3 : (bus.data 0 : Nat) &&& 0x80 ≠ 0
      · simp [readAHT21, h1, h2, h3]
      · by_cases h4 : -40 < aht21Temperature bus.data ∧ aht21Temperature bus.data < 85 ∧
            0 ≤ aht21Humidity bus.data ∧ aht21Humidity bus.data ≤ 100
        · have hr : readAHT21 bus st =
              (true, { st with g_temperature := aht21Temperature bus.data,
                               g_humidity := aht21Humidity bus.data }) := by
            unfold readAHT21
            rw [if_neg h1, if_pos h2, if_neg h3, if_pos h4]
          obtain ⟨ht1, ht2, hh1, hh2⟩ := h4
          rw [hr]
          constructor
          · intro _
            exact ⟨rfl, rfl, le_of_lt ht1, le_of_lt ht2, hh1, hh2⟩
          · intro hout
            rcases hout with h | h | h | h <;> linarith
        · have hr : readAHT21 bus st = (false, st) := by
            unfold readAHT21
            rw [if_neg h1, if_pos h2, if_neg h3, if_neg h4]
          rw [hr]
          exact ⟨by simp, fun _ => ⟨rfl, rfl⟩⟩
    · simp [readAHT21, h1, h2]

/-- C6 witness: all data bytes 0xFF decode to a temperature of about
149.9998 °C; the driver rejects the reading and leaves the state intact. -/
theorem readAHT21_range_reject_witness :
    (readAHT21 { cmdError := 0, avail := 6, data := fun _ => 255 } initState).1 = false ∧
    (readAHT21 { cmdError := 0, avail := 6, data := fun _ => 255 } initState).2 = initState := by
  have hraw : aht21TemperatureRaw (fun _ => (255 : Fin 256)) = 1048575 := by rfl
  have h85 : (85 : ℚ) < aht21Temperature (fun _ => (255 : Fin 256)) := by
    unfold aht21Temperature
    rw [hraw]
    norm_num
  exact (readAHT21_range_reject { cmdError := 0, avail := 6, data := fun _ => 255 } initState).2
    (Or.inr (Or.inl h85))

/-- C7: after `readAllSensors`, if at least one enabled driver succeeded the
validity flag is set and the timestamp equals the current time; if none
succeeded both are exactly as before; motion is freshly synthesized either
way; and the returned flag is exactly the disjunction of the three enabled
driver results. -/
theorem readAllSensors_validity_motion (aht : AHT21Bus) (ens : ENS160Bus)
    (powR : ℚ → ℚ) (adc motionRand now : Nat) (st : SensorState) :
    ((readAllSensors aht ens powR adc motionRand now st).1 = true →
      (readAllSensors aht ens powR adc motionRand now st).2.g_sensor_data_valid = true ∧
      (readAllSensors aht ens powR adc motionRand now st).2.g_last_sensor_update = now) ∧
    ((readAllSensors aht ens powR adc motionRand now st).1 = false →
      (readAllSensors aht ens powR adc motionRand now st).2.g_sensor_data_valid =
        st.g_sensor_data_valid ∧
      (readAllSensors aht ens powR adc motionRand now st).2.g_last_sensor_update =
        st.g_last_sensor_update) ∧
    (readAllSensors aht ens powR adc motionRand now st).2.g_motion =
      decide (motionRand < 5) ∧
    (readAllSensors aht ens powR adc motionRand now st).1 =
      ((readAHT21 aht st).1 || (readENS160 ens (readAHT21 aht st).2).1 ||
        (readGL5539 powR adc (readENS160 ens (readAHT21 aht st).2).2).1) := by
  obtain ⟨-, hv, hu⟩ := afterDrivers_frame aht ens powR adc st
  unfold readAllSensors
  split_ifs with hc
  · refine ⟨fun _ => ⟨rfl, rfl⟩, by simp, rfl, ?_⟩
    rw [eq_comm]
    exact hc
  · refine ⟨by simp, fun _ => ⟨?_, ?_⟩, rfl, ?_⟩
    · simpa using hv
    · simpa using hu
    · rw [eq_comm]
      simpa [anyDriverOk] using hc

/-- C7 witness: with every bus transaction failing and the ADC saturated,
no driver succeeds, so validity and timestamp are untouched while motion is
re-synthesized from the fresh random draw. -/
theorem readAllSensors_validity_motion_witness :
    (readAllSensors { cmdError := 1, avail := 0, data := fun _ => 0 }
        { statusCmdError := 1, statusAvail := 0, status := 0, aqiAvail := 0, aqi := 0,
          tvocAvail := 0, tvocLo := 0, tvocHi := 0, co2Avail := 0, co2Lo := 0, co2Hi := 0 }
        (fun _ => 1) 1023 7 99 initState).2.g_sensor_data_valid = false ∧
    (readAllSensors { cmdError := 1, avail := 0, data := fun _ => 0 }
        { statusCmdError := 1, statusAvail := 0, status := 0, aqiAvail := 0, aqi := 0,
          tvocAvail := 0, tvocLo := 0, tvocHi := 0, co2Avail := 0, co2Lo := 0, co2Hi := 0 }
        (fun _ => 1) 1023 7 99 initState).2.g_last_sensor_update = 0 := by
  have h := (readAllSensors_validity_motion { cmdError := 1, avail := 0, data := fun _ => 0 }
    { statusCmdError := 1, statusAvail := 0, status := 0, aqiAvail := 0, aqi := 0,
      tvocAvail := 0, tvocLo := 0, tvocHi := 0, co2Avail := 0, co2Lo := 0, co2Hi := 0 }
    (fun _ => 1) 1023 7 99 initState).2.1 (by rfl)
  exact ⟨h.1.trans (by rfl), h.2.trans (by rfl)⟩

/-- C10: `readGL5539` is total and never divides by zero — the resistance
division is reached only when `adc < ADC_MAX - 1`, where the denominator
`1024 - adc` is at least 2; and the read reports success, storing the
truncated lux value, exactly when `lux ∈ [0, 10000]` and `adc ≥ 10`, leaving
the state unchanged otherwise. -/
theorem readGL5539_guard_success (powR : ℚ → ℚ) (adc : Nat) (st : SensorState) :
    (1023 ≤ adc → readGL5539 powR adc st = (false, st)) ∧
    (adc < 1023 →
      (2 : ℚ) ≤ (1024 : ℚ) - (adc : ℚ) ∧
      ((readGL5539 powR adc st).1 = true ↔
        0 ≤ gl5539Lux powR adc ∧ gl5539Lux powR adc ≤ 10000 ∧ 10 ≤ adc) ∧
      ((readGL5539 powR adc st).1 = true →
        (readGL5539 powR adc st).2 =
          { st with g_light_level := ⌊gl5539Lux powR adc⌋ }) ∧
      ((readGL5539 powR adc st).1 = false → (readGL5539 powR adc st).2 = st)) := by
  constructor
  · intro h
    unfold readGL5539
    rw [if_pos]
    exact h
  · intro h
    have hden : (2 : ℚ) ≤ (1024 : ℚ) - (adc : ℚ) := by
      have : (adc : ℚ) ≤ 1022 := by
        exact_mod_cast Nat.le_of_lt_succ h
      linarith
    have hguard : ¬ adc ≥ 1024 - 1 := by omega
    by_cases hchk : 0 ≤ gl5539Lux powR adc ∧ gl5539Lux powR adc ≤ 10000 ∧ 10 ≤ adc
    · have hr : readGL5539 powR adc st =
          (true, { st with g_light_level := ⌊gl5539Lux powR adc⌋ }) := by
        unfold readGL5539
        rw [if_neg hguard, if_pos hchk]
      rw [hr]
      exact ⟨hden, by simpa using hchk, fun _ => rfl, by simp⟩
    · have hr : readGL5539 powR adc st = (false, st) := by
        unfold readGL5539
        rw [if_neg hguard, if_neg hchk]
      rw [hr]
      refine ⟨hden, ?_, by simp, fun _ => rfl⟩
      simp only [Bool.false_eq_true, false_iff]
      exact hchk

/-- C10 witness: a mid-scale sample `adc = 512` gives `R = 10000 Ω`; with
the power curve evaluating to 400000 the lux value is 31.25, the read
succeeds and stores 31. -/
theorem readGL5539_guard_success_witness :
    (readGL5539 (fun _ => 400000) 512 initState).1 = true ∧
    (readGL5539 (fun _ => 400000) 512 initState).2 =
      { initState with g_light_level := ⌊gl5539Lux (fun _ => 400000) 512⌋ } := by
  have h := (readGL5539_guard_success (fun _ => 400000) 512 initState).2 (by norm_num)
  have hlux : gl5539Lux (fun _ => 400000) 512 = 125 / 4 := by
    unfold gl5539Lux gl5539LuxOfR gl5539Resistance
    norm_num
  have hok : (readGL5539 (fun _ => 400000) 512 initState).1 = true := by
    rw [h.2.1, hlux]
    norm_num
  exact ⟨hok, h.2.2.1 hok⟩

/-- C3 counterexample: with the status transaction succeeding, the status
byte reporting data-ready, a zero-byte (short) TVOC read and a successful
eCO2 read of 450 ppm, `readENS160` reports success — not failure — and
overwrites `g_voc` with the substituted default 0 (the previous value
was 15) and `g_co2` with 450. -/
theorem readENS160_shortRead_success_cex :
    (readENS160
      { statusCmdError := 0, statusAvail := 1, status := 2, aqiAvail := 1, aqi := 0,
        tvocAvail := 0, tvocLo := 0, tvocHi := 0, co2Avail := 2, co2Lo := 194, co2Hi := 1 }
      initState).1 = true ∧
    (readENS160
      { statusCmdError := 0, statusAvail := 1, status := 2, aqiAvail := 1, aqi := 0,
        tvocAvail := 0, tvocLo := 0, tvocHi := 0, co2Avail := 2, co2Lo := 194, co2Hi := 1 }
      initState).2.g_voc = 0 ∧
    initState.g_voc = 15 ∧
    (readENS160
      { statusCmdError := 0, statusAvail := 1, status := 2, aqiAvail := 1, aqi := 0,
        tvocAvail := 0, tvocLo := 0, tvocHi := 0, co2Avail := 2, co2Lo := 194, co2Hi := 1 }
      initState).2.g_co2 = 450 := by
  refine ⟨rfl, rfl, rfl, rfl⟩

/-- C3 (amended): a failure of the status-register transaction — or a
missing or not-ready status byte — makes `readENS160` return failure with
`g_co2` and `g_voc` untouched, and every failure leaves the state
unchanged; but a short read of the TVOC (resp. eCO2) sub-register after
data-ready substitutes the local default 0 (resp. 400), which can pass the
plausibility check, in which case the read reports success and overwrites
`g_voc` (resp. `g_co2`) with that default. -/
theorem readENS160_status_failure_and_defaults (bus : ENS160Bus) (st : SensorState) :
    ((bus.statusCmdError ≠ 0 ∨ bus.statusAvail = 0 ∨ (bus.status : Nat) &&& 0x02 = 0) →
      readENS160 bus st = (false, st)) ∧
    ((readENS160 bus st).1 = false → (readENS160 bus st).2 = st) ∧
    (bus.tvocAvail < 2 → (readENS160 bus st).1 = true → (readENS160 bus st).2.g_voc = 0) ∧
    (bus.co2Avail < 2 → (readENS160 bus st).1 = true → (readENS160 bus st).2.g_co2 = 400) := by
  refine ⟨?_, ?_, ?_, ?_⟩
  · intro h
    unfold readENS160
    rcases h with h | h | h
    · rw [if_pos h]
    · split_ifs with h1 h2 h3 <;> first | rfl | omega
    · split_ifs with h1 h2 h3 <;> first | rfl | exact absurd h h3
  · intro h
    unfold readENS160 at h ⊢
    split_ifs at h ⊢ <;> rfl
  · intro hshort h
    have htv : ens160Tvoc bus = 0 := by
      unfold ens160Tvoc
      rw [if_neg (by omega)]
    unfold readENS160 at h ⊢
    split_ifs at h ⊢
    simp [htv]
  · intro hshort h
    have hco : ens160Co2 bus = 400 := by
      unfold ens160Co2
      rw [if_neg (by omega)]
    unfold readENS160 at h ⊢
    split_ifs at h ⊢
    simp [hco]

/-- C3 amended witness: a failed status transaction leaves the state
untouched, and the short-TVOC case of the counterexample input stores the
default 0. -/
theorem readENS160_status_failure_and_defaults_witness :
    readENS160
      { statusCmdError := 3, statusAvail := 0, status := 0, aqiAvail := 0, aqi := 0,
        tvocAvail := 0, tvocLo := 0, tvocHi := 0, co2Avail := 0, co2Lo := 0, co2Hi := 0 }
      initState = (false, initState) :=
  (readENS160_status_failure_and_defaults
    { statusCmdError := 3, statusAvail := 0, status := 0, aqiAvail := 0, aqi := 0,
      tvocAvail := 0, tvocLo := 0, tvocHi := 0, co2Avail := 0, co2Lo := 0, co2Hi := 0 }
    initState).1 (Or.inl (by norm_num))

/-- C5: `handleMessage` leaves the whole mutable state (all sensor globals
and `wsConnected`) unchanged on every input, and any parsed message whose
`location` is non-empty and differs from `TARGET_ROOM` is discarded before
the type dispatch. -/
theorem handleMessage_frame_and_filter (msg : InMessage) (st : SysState) :
    (handleMessage msg st).2 = st ∧
    (msg.parseOk = true → msg.location ≠ "" → msg.location ≠ TARGET_ROOM →
      (handleMessage msg st).1 = Dispatch.discardedWrongRoom) := by
  refine ⟨handleMessage_state_eq msg st, ?_⟩
  intro hok hne hroom
  unfold handleMessage
  rw [if_neg (by simp [hok]), if_pos ⟨hne, hroom⟩]

/-- C5 witness: a `sensor_update` message for the kitchen is discarded by
the living-room device with no state change. -/
theorem handleMessage_frame_and_filter_witness :
    (handleMessage { parseOk := true, type := "sensor_update", location := "kitchen" }
      initSysState).2 = initSysState ∧
    (handleMessage { parseOk := true, type := "sensor_update", location := "kitchen" }
      initSysState).1 = Dispatch.discardedWrongRoom := by
  have h := handleMessage_frame_and_filter
    { parseOk := true, type := "sensor_update", location := "kitchen" } initSysState
  exact ⟨h.1, h.2 rfl (by decide) (by decide)⟩

/-- C8 counterexample: with the connection down, `sendPing` sends nothing
but also prints nothing — the second component records that the
"not connected" warning did not execute (the source is the bare
`if (!wsConnected) return;`), contrary to the claim that every outbound
send emits a logged warning when disconnected. -/
theorem sendPing_disconnected_no_warning_cex :
    sendPing initState false 1000 "AA:BB:CC" = (none, false) := rfl

/-- C8 (amended): when `wsConnected` is false, both `sendSensorData` and
`sendPing` return without transmitting or queuing anything and without
modifying any program state; `sendSensorData` emits a logged warning while
`sendPing` returns silently. -/
theorem sends_disconnected_drop (st : SensorState) (now : Nat) (rng : SimRand)
    (mac : String) (sys : SysState) :
    sendSensorData st false now rng mac = (none, true) ∧
    sendPing st false now mac = (none, false) ∧
    stepOp (.sendData rng now mac) sys = sys ∧
    stepOp (.sendPingOp now mac) sys = sys :=
  ⟨rfl, rfl, rfl, rfl⟩

/-- C1 counterexample: state marked valid 61000 ms ago (so the gate reports
not-fresh), connection up. The composed message carries the synthesized
temperature 23.6 °C (the stored reading is 23.5 °C, the draw is 10), yet its
`data_type` tag is "real" and its `source` tag is "esp8266_real_sensors" —
not the "simulated" tags the claim requires for a not-fresh gate, because the
tags test the raw flag (network.h lines 108-109), not the gate. -/
theorem sendSensorData_staleTag_cex :
    isSensorDataValid { initState with g_sensor_data_valid := true } 61000 = false ∧
    ((sendSensorData { initState with g_sensor_data_valid := true } true 61000
        { rTemp := 10, rHum := 0, rCo2 := 0, rVoc := 0, rLight := 0, rMotion := 99 }
        "AA:BB").1.map (fun m => m.parameters.data_type)) = some "real" ∧
    ((sendSensorData { initState with g_sensor_data_valid := true } true 61000
        { rTemp := 10, rHum := 0, rCo2 := 0, rVoc := 0, rLight := 0, rMotion := 99 }
        "AA:BB").1.map (fun m => m.parameters.source)) = some "esp8266_real_sensors" ∧
    ((sendSensorData { initState with g_sensor_data_valid := true } true 61000
        { rTemp := 10, rHum := 0, rCo2 := 0, rVoc := 0, rLight := 0, rMotion := 99 }
        "AA:BB").1.map (fun m => m.parameters.temperature)) = some 23.6 ∧
    ({ initState with g_sensor_data_valid := true } : SensorState).g_temperature = 23.5 := by
  refine ⟨by decide, rfl, rfl, ?_, rfl⟩
  show some (23.5 + (10 : ℚ) / 100) = some 23.6
  norm_num

/-- C1 (amended): on each connected send tick the *values* follow the
validity gate — verbatim stored fields when the gate reports fresh, fully
synthesized values otherwise — but the `source` and `data_type` tags only
test the raw `g_sensor_data_valid` flag: they read "real" whenever the flag
is set, even when freshness has lapsed and the values are synthesized. -/
theorem sendSensorData_gate_values_flag_tags (st : SensorState) (now : Nat)
    (rng : SimRand) (mac : String) :
    ∃ m, (sendSensorData st true now rng mac).1 = some m ∧
      (isSensorDataValid st now = true →
        m.parameters.temperature = st.g_temperature ∧
        m.parameters.humidity = st.g_humidity ∧
        m.parameters.co2 = st.g_co2 ∧
        m.parameters.voc = st.g_voc ∧
        m.parameters.light_level = st.g_light_level ∧
        m.parameters.motion = st.g_motion) ∧
      (isSensorDataValid st now = false →
        m.parameters.temperature = 23.5 + (rng.rTemp : ℚ) / 100 ∧
        m.parameters.humidity = 55 + (rng.rHum : ℚ) / 100 ∧
        m.parameters.co2 = 420 + rng.rCo2 ∧
        m.parameters.voc = 15 + rng.rVoc ∧
        m.parameters.light_level = 300 + rng.rLight ∧
        m.parameters.motion = decide (rng.rMotion < 10)) ∧
      m.parameters.source =
        (if st.g_sensor_data_valid then "esp8266_real_sensors" else "esp8266_simulated") ∧
      m.parameters.data_type = (if st.g_sensor_data_valid then "real" else "simulated") := by
  refine ⟨composedMessage st now rng mac, rfl, ?_, ?_, rfl, rfl⟩
  · intro hgate
    have hflag : st.g_sensor_data_valid = true := by
      unfold isSensorDataValid at hgate
      simp only [Bool.and_eq_true] at hgate
      exact hgate.1
    have hur : useRealData st now = true := by
      unfold useRealData
      rw [hgate, Bool.and_true]
      exact hflag
    simp [composedMessage, hur]
  · intro hgate
    have hur : useRealData st now = false := by
      unfold useRealData
      rw [hgate, Bool.and_false]
    simp [composedMessage, hur]
    norm_num

/-- C1 amended witness: with a fresh gate (poll at time 0, tick at time 0)
and a stored temperature of 30 °C, the message carries 30 °C verbatim and is
tagged "real". -/
theorem sendSensorData_gate_values_flag_tags_witness :
    ∃ m, (sendSensorData { initState with g_sensor_data_valid := true, g_temperature := 30 }
        true 0 { rTemp := 0, rHum := 0, rCo2 := 0, rVoc := 0, rLight := 0, rMotion := 0 }
        "AA").1 = some m ∧
      m.parameters.temperature = 30 ∧ m.parameters.data_type = "real" := by
  obtain ⟨m, hm, hreal, -, -, hdt⟩ := sendSensorData_gate_values_flag_tags
    { initState with g_sensor_data_valid := true, g_temperature := 30 } 0
    { rTemp := 0, rHum := 0, rCo2 := 0, rVoc := 0, rLight := 0, rMotion := 0 } "AA"
  have hg : isSensorDataValid
      { initState with g_sensor_data_valid := true, g_temperature := 30 } 0 = true := by
    decide
  obtain ⟨ht, -, -, -, -, -⟩ := hreal hg
  refine ⟨m, hm, ht, ?_⟩
  rw [hdt]
  rfl

/-- C4: the validity flag is monotone over the operating loop — it starts
false, the send/ping/dispatch/transport operations never write it (the send
operations have no state effect at all, and the dispatcher and the
transport callback leave the sensor globals intact), any single operation
preserves it once true, hence any operation sequence preserves it; and
whenever the flag is set, the composed outbound message is tagged
`data_type = "real"` and `source = "esp8266_real_sensors"`, freshness
notwithstanding. -/
theorem sensorValid_monotone :
    initSysState.sensors.g_sensor_data_valid = false ∧
    (∀ (rng : SimRand) (now : Nat) (mac : String) (st : SysState),
      stepOp (.sendData rng now mac) st = st) ∧
    (∀ (now : Nat) (mac : String) (st : SysState), stepOp (.sendPingOp now mac) st = st) ∧
    (∀ (msg : InMessage) (st : SysState), (stepOp (.handle msg) st).sensors = st.sensors) ∧
    (∀ (ev : WSEvent) (st : SysState), (stepOp (.wsEvent ev) st).sensors = st.sensors) ∧
    (∀ (op : Op) (st : SysState), st.sensors.g_sensor_data_valid = true →
      (stepOp op st).sensors.g_sensor_data_valid = true) ∧
    (∀ (ops : List Op) (st : SysState), st.sensors.g_sensor_data_valid = true →
      (runOps ops st).sensors.g_sensor_data_valid = true) ∧
    (∀ (st : SensorState) (now : Nat) (rng : SimRand) (mac : String),
      st.g_sensor_data_valid = true →
      ∃ m, (sendSensorData st true now rng mac).1 = some m ∧
        m.parameters.data_type = "real" ∧
        m.parameters.source = "esp8266_real_sensors") := by
  have hstep : ∀ (op : Op) (st : SysState), st.sensors.g_sensor_data_valid = true →
      (stepOp op st).sensors.g_sensor_data_valid = true := by
    intro op st h
    cases op with
    | readAll aht ens powR adc motionRand now =>
        obtain ⟨-, hv, -⟩ := afterDrivers_frame aht ens powR adc st.sensors
        simp only [stepOp]
        unfold readAllSensors
        split_ifs
        · rfl
        · show (afterDrivers aht ens powR adc st.sensors).g_sensor_data_valid = true
          rw [hv]
          exact h
    | sendData rng now mac => exact h
    | sendPingOp now mac => exact h
    | handle msg =>
        show (handleMessage msg st).2.sensors.g_sensor_data_valid = true
        rw [handleMessage_state_eq]
        exact h
    | wsEvent ev =>
        cases ev with
        | text msg =>
            show (handleMessage msg st).2.sensors.g_sensor_data_valid = true
            rw [handleMessage_state_eq]
            exact h
        | disconnected => exact h
        | connected => exact h
        | errorEv => exact h
        | pingEv => exact h
        | pongEv => exact h
        | otherEv => exact h
  have hrun : ∀ (ops : List Op) (st : SysState), st.sensors.g_sensor_data_valid = true →
      (runOps ops st).sensors.g_sensor_data_valid = true := by
    intro ops
    induction ops with
    | nil => intro st h; exact h
    | cons op rest ih => intro st h; exact ih (stepOp op st) (hstep op st h)
  refine ⟨rfl, fun _ _ _ _ => rfl, fun _ _ _ => rfl, ?_, ?_, hstep, hrun, ?_⟩
  · intro msg st
    show (handleMessage msg st).2.sensors = st.sensors
    rw [handleMessage_state_eq]
  · intro ev st
    cases ev with
    | text msg =>
        show (handleMessage msg st).2.sensors = st.sensors
        rw [handleMessage_state_eq]
    | disconnected => rfl
    | connected => rfl
    | errorEv => rfl
    | pingEv => rfl
    | pongEv => rfl
    | otherEv => rfl
  · intro st now rng mac hflag
    exact ⟨composedMessage st now rng mac, rfl, by simp [composedMessage, hflag],
      by simp [composedMessage, hflag]⟩

/-- C4 witness: once the flag is set, a ping and an inbound init message
leave it set. -/
theorem sensorValid_monotone_witness :
    (runOps [Op.sendPingOp 0 "AA", Op.handle { parseOk := true, type := "init", location := "" }]
      { sensors := { initState with g_sensor_data_valid := true },
        wsConnected := true }).sensors.g_sensor_data_valid = true :=
  sensorValid_monotone.2.2.2.2.2.2.1
    [Op.sendPingOp 0 "AA", Op.handle { parseOk := true, type := "init", location := "" }]
    { sensors := { initState with g_sensor_data_valid := true }, wsConnected := true }
    rfl

/-- C9: with the validity flag clear, a connected `sendSensorData` still
composes a structurally complete control envelope — one `sensors` /
`data_update` command whose parameter set carries all ten fields — tagged
`data_type = "simulated"` (the `source` string is "esp8266_simulated"), with
every synthesized value inside its documented range, given the Arduino
`random(a, b)` contract that a draw lies in `[a, b-1]`. -/
theorem sendSensorData_simulated_complete (st : SensorState) (now : Nat)
    (rng : SimRand) (mac : String)
    (hvalid : st.g_sensor_data_valid = false)
    (h1 : -50 ≤ rng.rTemp) (h2 : rng.rTemp ≤ 49)
    (h3 : -200 ≤ rng.rHum) (h4 : rng.rHum ≤ 199)
    (h5 : -50 ≤ rng.rCo2) (h6 : rng.rCo2 ≤ 79)
    (h7 : -10 ≤ rng.rVoc) (h8 : rng.rVoc ≤ 24)
    (h9 : -100 ≤ rng.rLight) (h10 : rng.rLight ≤ 299) :
    ∃ m, (sendSensorData st true now rng mac).1 = some m ∧
      m.type = "control" ∧ m.device = "sensors" ∧ m.action = "data_update" ∧
      m.location = "living_room" ∧
      m.parameters.source = "esp8266_simulated" ∧
      m.parameters.data_type = "simulated" ∧
      m.parameters.device_id = mac ∧
      m.parameters.timestamp = now ∧
      23 ≤ m.parameters.temperature ∧ m.parameters.temperature ≤ 24 ∧
      53 ≤ m.parameters.humidity ∧ m.parameters.humidity ≤ 57 ∧
      370 ≤ m.parameters.co2 ∧ m.parameters.co2 ≤ 500 ∧
      5 ≤ m.parameters.voc ∧ m.parameters.voc ≤ 40 ∧
      200 ≤ m.parameters.light_level ∧ m.parameters.light_level ≤ 600 := by
  have hur : useRealData st now = false := by
    unfold useRealData
    rw [hvalid, Bool.false_and]
  have c1 : (-50 : ℚ) ≤ (rng.rTemp : ℚ) := by exact_mod_cast h1
  have c2 : (rng.rTemp : ℚ) ≤ 49 := by exact_mod_cast h2
  have c3 : (-200 : ℚ) ≤ (rng.rHum : ℚ) := by exact_mod_cast h3
  have c4 : (rng.rHum : ℚ) ≤ 199 := by exact_mod_cast h4
  refine ⟨composedMessage st now rng mac, rfl, rfl, rfl, rfl, rfl,
    by simp [composedMessage, hvalid], by simp [composedMessage, hvalid], rfl, rfl,
    ?_, ?_, ?_, ?_, ?_, ?_, ?_, ?_, ?_, ?_⟩
  · simp only [composedMessage, hur, Bool.false_eq_true, if_false]
    linarith
  · simp only [composedMessage, hur, Bool.false_eq_true, if_false]
    linarith
  · simp only [composedMessage, hur, Bool.false_eq_true, if_false]
    linarith
  · simp only [composedMessage, hur, Bool.false_eq_true, if_false]
    linarith
  · simp only [composedMessage, hur, Bool.false_eq_true, if_false]
    omega
  · simp only [composedMessage, hur, Bool.false_eq_true, if_false]
    omega
  · simp only [composedMessage, hur, Bool.false_eq_true, if_false]
    omega
  · simp only [composedMessage, hur, Bool.false_eq_true, if_false]
    omega
  · simp only [composedMessage, hur, Bool.false_eq_true, if_false]
    omega
  · simp only [composedMessage, hur, Bool.false_eq_true, if_false]
    omega

/-- C9 witness: the freshly powered-up state (flag clear) with mid-range
draws composes a complete simulated envelope within all documented ranges. -/
theorem sendSensorData_simulated_complete_witness :
    ∃ m, (sendSensorData initState true 5
        { rTemp := 0, rHum := 0, rCo2 := 0, rVoc := 0, rLight := 0, rMotion := 0 }
        "AA").1 = some m ∧
      m.type = "control" ∧ m.device = "sensors" ∧ m.action = "data_update" ∧
      m.location = "living_room" ∧
      m.parameters.source = "esp8266_simulated" ∧
      m.parameters.data_type = "simulated" ∧
      m.parameters.device_id = "AA" ∧
      m.parameters.timestamp = 5 ∧
      23 ≤ m.parameters.temperature ∧ m.parameters.temperature ≤ 24 ∧
      53 ≤ m.parameters.humidity ∧ m.parameters.humidity ≤ 57 ∧
      370 ≤ m.parameters.co2 ∧ m.parameters.co2 ≤ 500 ∧
      5 ≤ m.parameters.voc ∧ m.parameters.voc ≤ 40 ∧
      200 ≤ m.parameters.light_level ∧ m.parameters.light_level ≤ 600 :=
  sendSensorData_simulated_complete initState 5
    { rTemp := 0, rHum := 0, rCo2 := 0, rVoc := 0, rLight := 0, rMotion := 0 } "AA"
    rfl (by decide) (by decide) (by decide) (by decide) (by decide) (by decide)
    (by decide) (by decide) (by decide) (by decide)

end SmartHome
